import Mathlib

/-!
# AP_ExternalAHRS: the manager of serial connected AHRS systems

A shallow embedding of `libraries/AP_ExternalAHRS/AP_ExternalAHRS.cpp`.

* Parameters (`AP_Int8`, `AP_Int16`) are carried as `Int`; casts to unsigned
  types are written with an explicit `%`.
* The two preprocessor switches `AP_EXTERNAL_AHRS_VECTORNAV_ENABLED` and
  `AP_EXTERNAL_AHRS_MICROSTRAIN_ENABLED` are the fields of `BuildConfig`; a
  function whose body holds an `#if` takes the configuration as an argument.
* Reference parameters (`Quaternion &quat`) are passed in and handed back in
  the result.
* Every accessor returns, next to its value, the list of events it performs on
  the shared state: reads of presence flags, reads of value fields, and the
  take and give of `state.sem` (`WITH_SEMAPHORE` takes the semaphore where it
  stands and gives it back when the enclosing scope is left).
* The concrete backends, `AP_Param`, `GCS` and the class declaration are not
  part of this file of the repository; what the code here needs of them is
  either an argument or a definition marked as modelled.
-/

namespace AP_ExternalAHRS

/-! ## Data model -/

/-- A `float` is carried as its bit pattern: this file only copies floats. -/
abbrev FloatBits := Nat

/-- The `Vector3f` of AP_Math, by components. -/
structure Vector3f where
  x : FloatBits
  y : FloatBits
  z : FloatBits
deriving DecidableEq, Repr

/-- The `Vector2f` of AP_Math, by components. -/
structure Vector2f where
  x : FloatBits
  y : FloatBits
deriving DecidableEq, Repr

/-- The `Quaternion` of AP_Math, by components. -/
structure Quaternion where
  q1 : FloatBits
  q2 : FloatBits
  q3 : FloatBits
  q4 : FloatBits
deriving DecidableEq, Repr

/-- Modelled from the spec: the geodetic `Location` record of AP_Common, which
this file only copies; latitude, longitude and altitude as integers. -/
structure Location where
  lat : Int
  lng : Int
  alt : Int
deriving DecidableEq, Repr

/-- Modelled from the spec: the shared record `state` (`state_t` of the class
declaration): attitude, navigation and the four presence flags. The semaphore
`sem` has no data; its use is recorded in the event lists. -/
structure SensorState where
  accel : Vector3f
  gyro : Vector3f
  quat : Quaternion
  location : Location
  velocity : Vector3f
  origin : Location
  have_quaternion : Bool
  have_origin : Bool
  have_location : Bool
  have_velocity : Bool
deriving DecidableEq, Repr

/-- Modelled from the spec: the record before any backend has written to it.
"A presence flag is false until the first successful write of that field." -/
def SensorState.initial : SensorState :=
  { accel := ⟨0, 0, 0⟩, gyro := ⟨0, 0, 0⟩, quat := ⟨0, 0, 0, 0⟩,
    location := ⟨0, 0, 0⟩, velocity := ⟨0, 0, 0⟩, origin := ⟨0, 0, 0⟩,
    have_quaternion := false, have_origin := false,
    have_location := false, have_velocity := false }

/-- The enumeration `DevType`, an enum class over `uint8_t`: a value is any
number below 256. -/
structure DevType where
  val : Nat
deriving DecidableEq, Repr

/-- The enumerator `DevType::None`, value 0 (`@Values: 0:None,1:VectorNav,2:MicroStrain`). -/
def DevType.None : DevType := ⟨0⟩

/-- The enumerator `DevType::VecNav`, value 1. -/
def DevType.VecNav : DevType := ⟨1⟩

/-- The enumerator `DevType::MicroStrain`, value 2. -/
def DevType.MicroStrain : DevType := ⟨2⟩

/-- The cast `DevType(devtype)` of the stored `AP_Int8` value: conversion to
the underlying `uint8_t`. -/
def DevType.cast (v : Int) : DevType := ⟨(v % 256).toNat⟩

/-- The cast `unsigned(devtype)` of the stored `AP_Int8` value (32 bit). -/
def unsigned (v : Int) : Nat := (v % 4294967296).toNat

/-- The enumeration `AvailableSensor`. -/
inductive AvailableSensor where
  | GPS
  | IMU
  | BARO
  | COMPASS
deriving DecidableEq, Repr

/-- Modelled from the spec: the enumerator values of `AvailableSensor`, one
bit each: "bit0 GPS, bit1 IMU, bit2 Barometer, bit3 Compass"
(`@Bitmask: 0:GPS,1:IMU,2:Baro,3:Compass`). -/
def AvailableSensor.bit : AvailableSensor → Nat
  | .GPS => 0
  | .IMU => 1
  | .BARO => 2
  | .COMPASS => 3

/-- Modelled from the spec: what the active backend object answers when the
manager forwards a call to it (the backend interface of section 4.2). The
concrete backends are not part of this file. -/
structure Backend where
  /-- which concrete class was constructed -/
  kind : DevType
  /-- what `get_port()` returns: the serial port number, an `int8_t` -/
  get_port : Int
  /-- what `healthy()` returns -/
  healthy : Bool
  /-- what `initialised()` returns -/
  initialised : Bool
  /-- what `get_name()` returns -/
  get_name : String
  /-- for `pre_arm_check`: whether the device is safe to arm -/
  pre_arm_ok : Bool
  /-- for `pre_arm_check`: the reason written on failure -/
  pre_arm_reason : String
  /-- for `get_filter_status`: the flags the backend sets in a cleared record -/
  filter_status : Nat
deriving DecidableEq, Repr

/-- Modelled from the spec: `backend->pre_arm_check(buffer, capacity)`: "on
failure writes a short human-readable reason into the caller-supplied buffer,
truncated to capacity, and returns false". -/
def Backend.pre_arm_check (b : Backend) (failure_msg : String) (failure_msg_len : Nat) :
    Bool × String :=
  if b.pre_arm_ok then (true, failure_msg)
  else (false, b.pre_arm_reason.take (failure_msg_len - 1))

/-- The manager object: the four parameters of `var_info`, the backend
pointer (`none` is the null pointer) and the shared record. -/
structure Manager where
  /-- parameter `_TYPE`, an `AP_Int8` -/
  devtype : Int
  /-- parameter `_RATE`, an `AP_Int16` -/
  rate : Int
  /-- parameter `_OPTIONS`, an `AP_Int16` -/
  options : Int
  /-- parameter `_SENSORS`, an `AP_Int16` -/
  sensors : Int
  backend : Option Backend
  state : SensorState
deriving DecidableEq, Repr

/-- The build configuration: the two `#if` switches of `init`. -/
structure BuildConfig where
  AP_EXTERNAL_AHRS_VECTORNAV_ENABLED : Bool
  AP_EXTERNAL_AHRS_MICROSTRAIN_ENABLED : Bool
deriving DecidableEq, Repr

/-- The constructors of the concrete backends, called by `init` with the
manager (`this`, `state`): the object built, or `none` when `new` hands back
the null pointer. -/
structure BackendFactory where
  new_VectorNav : Manager → Option Backend
  new_MicroStrain : Manager → Option Backend

/-- The severities of a status text that this file uses. -/
inductive MAV_SEVERITY where
  | MAV_SEVERITY_INFO
deriving DecidableEq, Repr

/-- One call of `GCS_SEND_TEXT`: severity, format string and its argument. -/
structure StatusText where
  severity : MAV_SEVERITY
  format : String
  arg : Nat
deriving DecidableEq, Repr

/-- The presence flags of the shared record. -/
inductive Flag where
  | have_quaternion
  | have_origin
  | have_location
  | have_velocity
deriving DecidableEq, Repr

/-- The value fields of the shared record. -/
inductive Field where
  | accel
  | gyro
  | quat
  | location
  | velocity
  | origin
deriving DecidableEq, Repr

/-- What an accessor does to the shared record, in program order. -/
inductive Event where
  /-- a presence flag is read -/
  | read_flag (f : Flag)
  /-- the semaphore is taken by `WITH_SEMAPHORE(state.sem)` -/
  | sem_take
  /-- a value field is read -/
  | read_field (f : Field)
  /-- the scope of `WITH_SEMAPHORE` is left: the semaphore is given back -/
  | sem_give
deriving DecidableEq, Repr

/-! ## Operations -/

/-- The store `rate.set(v)` of `AP_Param`. -/
def set_rate (m : Manager) (v : Int) : Manager := { m with rate := v }

/-- The minimum enforced by the constructor and by `init`:
`if (rate.get() < 50) { rate.set(50); }`. -/
def clamp_rate (m : Manager) : Manager :=
  if m.rate < 50 then set_rate m 50 else m

/-- The constructor `AP_ExternalAHRS::AP_ExternalAHRS()`:
`setup_object_defaults` stores the defaults of `var_info`
(`HAL_EXTERNAL_AHRS_DEFAULT`, 50, 0, 0xF), then the minimum rate is enforced.
The backend pointer is null and the shared record is untouched. -/
def new (HAL_EXTERNAL_AHRS_DEFAULT : Int) : Manager :=
  clamp_rate
    { devtype := HAL_EXTERNAL_AHRS_DEFAULT, rate := 50, options := 0, sensors := 0xF,
      backend := none, state := SensorState.initial }

/-- Loading the stored parameter values into a constructed manager (done by
the parameter storage between the constructor and `init`). -/
def load_params (m : Manager) (devtype rate options sensors : Int) : Manager :=
  { m with devtype := devtype, rate := rate, options := options, sensors := sensors }

/-- The text sent by `init` for a type it has no case for. -/
def unsupported_text (devtype : Int) : StatusText :=
  { severity := .MAV_SEVERITY_INFO, format := "Unsupported ExternalAHRS type %u",
    arg := unsigned devtype }

/-- The function `AP_ExternalAHRS::init`: the new manager and the status texts sent.

The `default:` label stands inside `#if AP_EXTERNAL_AHRS_MICROSTRAIN_ENABLED`:
with that switch off the `switch` has no default, a value without a case
leaves it at once, and the `GCS_SEND_TEXT` after the last `break` is never
reached. -/
def init (cfg : BuildConfig) (env : BackendFactory) (m : Manager) :
    Manager × List StatusText :=
  let m := clamp_rate m
  let t := DevType.cast m.devtype
  if t = DevType.None then
    (m, [])
  else if cfg.AP_EXTERNAL_AHRS_VECTORNAV_ENABLED = true ∧ t = DevType.VecNav then
    ({ m with backend := env.new_VectorNav m }, [])
  else if cfg.AP_EXTERNAL_AHRS_MICROSTRAIN_ENABLED = true ∧ t = DevType.MicroStrain then
    ({ m with backend := env.new_MicroStrain m }, [])
  else if cfg.AP_EXTERNAL_AHRS_MICROSTRAIN_ENABLED = true then
    (m, [unsupported_text m.devtype])
  else
    (m, [])

/-- The function `AP_ExternalAHRS::enabled`. -/
def enabled (m : Manager) : Bool :=
  DevType.cast m.devtype != DevType.None

/-- Modelled from the spec: `has_sensor` of the class declaration: the bit of
the sensor in the `_SENSORS` bitmask, both taken as `uint16_t`. -/
def has_sensor (m : Manager) (sensor : AvailableSensor) : Bool :=
  ((m.sensors % 65536).toNat &&& (1 <<< sensor.bit)) != 0

/-- What one call of an accessor yields: the value returned (with the
caller's reference argument, where there is one), the manager after the call,
and the events on the shared record in program order. -/
structure Call (α : Type) where
  value : α
  self : Manager
  events : List Event

/-- The function `AP_ExternalAHRS::get_port`: the serial port number, or -1. -/
def get_port (m : Manager) (sensor : AvailableSensor) : Call Int :=
  match m.backend with
  | none => ⟨-1, m, []⟩
  | some b => if has_sensor m sensor then ⟨b.get_port, m, []⟩ else ⟨-1, m, []⟩

/-- The function `AP_ExternalAHRS::healthy`. -/
def healthy (m : Manager) : Call Bool :=
  match m.backend with
  | none => ⟨false, m, []⟩
  | some b => ⟨b.healthy, m, []⟩

/-- The function `AP_ExternalAHRS::initialised`. -/
def initialised (m : Manager) : Call Bool :=
  match m.backend with
  | none => ⟨false, m, []⟩
  | some b => ⟨b.initialised, m, []⟩

/-- The function `AP_ExternalAHRS::get_quaternion`: the result and the caller's `quat`. -/
def get_quaternion (m : Manager) (quat : Quaternion) : Call (Bool × Quaternion) :=
  if m.state.have_quaternion then
    ⟨(true, m.state.quat), m,
      [.read_flag .have_quaternion, .sem_take, .read_field .quat, .sem_give]⟩
  else
    ⟨(false, quat), m, [.read_flag .have_quaternion]⟩

/-- The function `AP_ExternalAHRS::get_origin`: the result and the caller's `loc`. -/
def get_origin (m : Manager) (loc : Location) : Call (Bool × Location) :=
  if m.state.have_origin then
    ⟨(true, m.state.origin), m,
      [.read_flag .have_origin, .sem_take, .read_field .origin, .sem_give]⟩
  else
    ⟨(false, loc), m, [.read_flag .have_origin]⟩

/-- The function `AP_ExternalAHRS::get_location`: the result and the caller's `loc`. -/
def get_location (m : Manager) (loc : Location) : Call (Bool × Location) :=
  if !m.state.have_location then
    ⟨(false, loc), m, [.read_flag .have_location]⟩
  else
    ⟨(true, m.state.location), m,
      [.read_flag .have_location, .sem_take, .read_field .location, .sem_give]⟩

/-- The function `AP_ExternalAHRS::get_groundspeed_vector`. -/
def get_groundspeed_vector (m : Manager) : Call Vector2f :=
  ⟨⟨m.state.velocity.x, m.state.velocity.y⟩, m,
    [.sem_take, .read_field .velocity, .read_field .velocity, .sem_give]⟩

/-- The function `AP_ExternalAHRS::get_velocity_NED`: the result and the caller's `vel`. -/
def get_velocity_NED (m : Manager) (vel : Vector3f) : Call (Bool × Vector3f) :=
  if !m.state.have_velocity then
    ⟨(false, vel), m, [.read_flag .have_velocity]⟩
  else
    ⟨(true, m.state.velocity), m,
      [.read_flag .have_velocity, .sem_take, .read_field .velocity, .sem_give]⟩

/-- The function `AP_ExternalAHRS::get_speed_down`: the result and the caller's `speedD`. -/
def get_speed_down (m : Manager) (speedD : FloatBits) : Call (Bool × FloatBits) :=
  if !m.state.have_velocity then
    ⟨(false, speedD), m, [.read_flag .have_velocity]⟩
  else
    ⟨(true, m.state.velocity.z), m,
      [.read_flag .have_velocity, .sem_take, .read_field .velocity, .sem_give]⟩

/-- The function `AP_ExternalAHRS::pre_arm_check`: the result and the caller's buffer. -/
def pre_arm_check (m : Manager) (failure_msg : String) (failure_msg_len : Nat) :
    Call (Bool × String) :=
  match m.backend with
  | none => ⟨(false, failure_msg), m, []⟩
  | some b => ⟨b.pre_arm_check failure_msg failure_msg_len, m, []⟩

/-- The function `AP_ExternalAHRS::get_filter_status`: the caller's record is cleared
(`status = {}`, all flags 0) and then filled by the backend, if there is one. -/
def get_filter_status (m : Manager) (_status : Nat) : Call Nat :=
  match m.backend with
  | none => ⟨0, m, []⟩
  | some b => ⟨b.filter_status, m, []⟩

/-- The function `AP_ExternalAHRS::get_gyro`. -/
def get_gyro (m : Manager) : Call Vector3f :=
  ⟨m.state.gyro, m, [.sem_take, .read_field .gyro, .sem_give]⟩

/-- The function `AP_ExternalAHRS::get_accel`. -/
def get_accel (m : Manager) : Call Vector3f :=
  ⟨m.state.accel, m, [.sem_take, .read_field .accel, .sem_give]⟩

/-- The function `AP_ExternalAHRS::update`: one tick is forwarded to the backend, whose
`update()` (the argument `tick`) may change the backend object and the shared
record. -/
def update (tick : Backend → SensorState → Backend × SensorState) (m : Manager) : Manager :=
  match m.backend with
  | none => m
  | some b => { m with backend := some (tick b m.state).1, state := (tick b m.state).2 }

/-- The function `AP_ExternalAHRS::get_name`: the name, or `none` for `nullptr`. -/
def get_name (m : Manager) : Call (Option String) :=
  match m.backend with
  | none => ⟨none, m, []⟩
  | some b => ⟨some b.get_name, m, []⟩

/-! ## Reading the event lists -/

/-- The semaphore is not touched: no take and no give among the events. -/
def lock_free (es : List Event) : Bool :=
  !es.contains .sem_take && !es.contains .sem_give

/-- Every read of a presence flag happens while the semaphore is held;
`held` says whether it is held before the first event. -/
def flags_read_locked : Bool → List Event → Bool
  | _, [] => true
  | _, .sem_take :: es => flags_read_locked true es
  | _, .sem_give :: es => flags_read_locked false es
  | held, .read_flag _ :: es => held && flags_read_locked held es
  | held, .read_field _ :: es => flags_read_locked held es

/-- Every read of a value field happens while the semaphore is held. -/
def fields_read_locked : Bool → List Event → Bool
  | _, [] => true
  | _, .sem_take :: es => fields_read_locked true es
  | _, .sem_give :: es => fields_read_locked false es
  | held, .read_flag _ :: es => fields_read_locked held es
  | held, .read_field _ :: es => held && fields_read_locked held es

/-- How often the semaphore is taken. -/
def takes (es : List Event) : Nat := es.count .sem_take

/-- No presence flag of the record is set. -/
def SensorState.no_data (s : SensorState) : Bool :=
  !s.have_quaternion && !s.have_origin && !s.have_location && !s.have_velocity

/-- The shape of a presence-gated accessor's events: the flag is the first
thing read, it is read while the semaphore is not held, and every value field
is read while the semaphore is held. -/
def flag_checked_before_lock (f : Flag) (es : List Event) : Bool :=
  es.head? == some (.read_flag f) && !flags_read_locked false es && fields_read_locked false es

/-! ## Sample values -/

/-- A VectorNav backend on serial port 2 that has not yet seen data. -/
def sample_VectorNav : Backend :=
  { kind := DevType.VecNav, get_port := 2, healthy := false, initialised := false,
    get_name := "VectorNav", pre_arm_ok := false, pre_arm_reason := "VectorNav unhealthy",
    filter_status := 0 }

/-- A MicroStrain backend on serial port 4. -/
def sample_MicroStrain : Backend :=
  { kind := DevType.MicroStrain, get_port := 4, healthy := true, initialised := true,
    get_name := "MicroStrain", pre_arm_ok := true, pre_arm_reason := "",
    filter_status := 1 }

/-- Constructors that succeed and build the two sample backends. -/
def sample_factory : BackendFactory :=
  { new_VectorNav := fun _ => some sample_VectorNav,
    new_MicroStrain := fun _ => some sample_MicroStrain }

/-- A build with VectorNav compiled in and MicroStrain compiled out. -/
def vectornav_only : BuildConfig :=
  { AP_EXTERNAL_AHRS_VECTORNAV_ENABLED := true, AP_EXTERNAL_AHRS_MICROSTRAIN_ENABLED := false }

/-- A build with both backends compiled in. -/
def full_build : BuildConfig :=
  { AP_EXTERNAL_AHRS_VECTORNAV_ENABLED := true, AP_EXTERNAL_AHRS_MICROSTRAIN_ENABLED := true }

/-- A backend tick that publishes a velocity and marks the backend healthy. -/
def sample_tick (b : Backend) (s : SensorState) : Backend × SensorState :=
  ({ b with healthy := true }, { s with velocity := ⟨3, 4, 5⟩, have_velocity := true })

/-- A manager of type VectorNav on a full build after `init` and one tick:
it has a backend and a velocity. -/
def sample_active : Manager :=
  update sample_tick (init full_build sample_factory (load_params (new 0) 1 50 0 15)).1

/-! ## Theorems -/

/-- The minimum is a maximum with 50. -/
theorem clamp_rate_rate (m : Manager) : (clamp_rate m).rate = max m.rate 50 := by
  unfold clamp_rate set_rate
  split
  · rename_i h; simp only; omega
  · rename_i h; omega

/-- An init changes nothing of the manager but the rate and the backend. -/
theorem init_rate (cfg : BuildConfig) (env : BackendFactory) (m : Manager) :
    (init cfg env m).1.rate = (clamp_rate m).rate := by
  unfold init
  simp only
  split_ifs <;> rfl

/-- C1: after `init()` the stored rate is `max r 50`, for every manager, every
build configuration and every backend constructor. -/
theorem init_rate_eq_max (cfg : BuildConfig) (env : BackendFactory) (m : Manager) :
    (init cfg env m).1.rate = max m.rate 50 := by
  rw [init_rate, clamp_rate_rate]

/-! ### Frame lemmas for `clamp_rate`, `init` and `update` -/

@[simp] theorem clamp_rate_devtype (m : Manager) : (clamp_rate m).devtype = m.devtype := by
  unfold clamp_rate set_rate; split <;> rfl

@[simp] theorem clamp_rate_backend (m : Manager) : (clamp_rate m).backend = m.backend := by
  unfold clamp_rate set_rate; split <;> rfl

@[simp] theorem clamp_rate_state (m : Manager) : (clamp_rate m).state = m.state := by
  unfold clamp_rate set_rate; split <;> rfl

@[simp] theorem clamp_rate_sensors (m : Manager) : (clamp_rate m).sensors = m.sensors := by
  unfold clamp_rate set_rate; split <;> rfl

/-- The shared record is not written by `init` itself. -/
theorem init_state (cfg : BuildConfig) (env : BackendFactory) (m : Manager) :
    (init cfg env m).1.state = m.state := by
  unfold init
  simp only
  split_ifs <;> simp

/-- The device type is not written by `init`. -/
theorem init_devtype (cfg : BuildConfig) (env : BackendFactory) (m : Manager) :
    (init cfg env m).1.devtype = m.devtype := by
  unfold init
  simp only
  split_ifs <;> simp

/-- The backend pointer after `init`, case by case of the `switch`. -/
theorem init_backend (cfg : BuildConfig) (env : BackendFactory) (m : Manager) :
    (init cfg env m).1.backend =
      if DevType.cast m.devtype = DevType.None then m.backend
      else if cfg.AP_EXTERNAL_AHRS_VECTORNAV_ENABLED = true ∧
          DevType.cast m.devtype = DevType.VecNav then env.new_VectorNav (clamp_rate m)
      else if cfg.AP_EXTERNAL_AHRS_MICROSTRAIN_ENABLED = true ∧
          DevType.cast m.devtype = DevType.MicroStrain then env.new_MicroStrain (clamp_rate m)
      else m.backend := by
  unfold init
  simp only [clamp_rate_devtype]
  split_ifs <;> simp

/-- The status texts of `init`, case by case of the `switch`: the text is sent
only through the `default:` label, which exists only with MicroStrain
compiled in. -/
theorem init_texts (cfg : BuildConfig) (env : BackendFactory) (m : Manager) :
    (init cfg env m).2 =
      if DevType.cast m.devtype = DevType.None then []
      else if cfg.AP_EXTERNAL_AHRS_VECTORNAV_ENABLED = true ∧
          DevType.cast m.devtype = DevType.VecNav then []
      else if cfg.AP_EXTERNAL_AHRS_MICROSTRAIN_ENABLED = true ∧
          DevType.cast m.devtype = DevType.MicroStrain then []
      else if cfg.AP_EXTERNAL_AHRS_MICROSTRAIN_ENABLED = true then
        [unsupported_text m.devtype]
      else [] := by
  unfold init
  simp only [clamp_rate_devtype]
  split_ifs <;> simp

/-- The rate is not written by `update`. -/
theorem update_rate (tick : Backend → SensorState → Backend × SensorState) (m : Manager) :
    (update tick m).rate = m.rate := by
  unfold update
  split <;> rfl

/-- Without a backend, `update` does nothing. -/
theorem update_of_no_backend (tick : Backend → SensorState → Backend × SensorState)
    (m : Manager) (h : m.backend = none) : update tick m = m := by
  unfold update
  rw [h]

/-- Without a backend, `get_port` is -1 whatever the sensor. -/
theorem get_port_of_no_backend (m : Manager) (s : AvailableSensor) (h : m.backend = none) :
    (get_port m s).value = -1 := by
  unfold get_port
  rw [h]

/-- The cast of a stored `AP_Int8` value is `None` only for 0. -/
theorem cast_eq_None_iff (v : Int) (hlo : -128 ≤ v) (hhi : v ≤ 127) :
    DevType.cast v = DevType.None ↔ v = 0 := by
  unfold DevType.cast DevType.None
  rw [DevType.mk.injEq]
  omega

/-- A freshly constructed manager, with whatever parameter values loaded, has
no backend and a record without data; its rate default is 50. -/
theorem fresh_manager (d devtype rate options sensors : Int) :
    (load_params (new d) devtype rate options sensors).backend = none ∧
    (load_params (new d) devtype rate options sensors).state = SensorState.initial ∧
    (load_params (new d) devtype rate options sensors).state.no_data = true ∧
    (new d).rate = 50 := by
  refine ⟨rfl, rfl, rfl, ?_⟩
  rw [new, clamp_rate_rate]
  rfl

/-! ### The claims -/

/-- C2 (as stated, refuted): on a manager on which `init()` has run, a rate of
10 stored afterwards stays 10; it is not 50, also not after an `update()`. -/
theorem rate_set_after_init_not_clamped :
    (set_rate (init full_build sample_factory (new 1)).1 10).rate = 10 ∧
    (set_rate (init full_build sample_factory (new 1)).1 10).rate ≠ 50 ∧
    (update sample_tick (set_rate (init full_build sample_factory (new 1)).1 10)).rate ≠ 50 := by
  decide

/-- C2 (amended): the minimum is enforced by `init()` only at the moment it
runs. A rate `v` below 50 stored after `init()` is kept as `v` (so it is not
50), `update()` leaves it at `v`, and a further `init()` stores 50. -/
theorem rate_set_after_init (cfg : BuildConfig) (env : BackendFactory) (m : Manager)
    (tick : Backend → SensorState → Backend × SensorState) (v : Int) (hv : v < 50) :
    (set_rate (init cfg env m).1 v).rate = v ∧
    (set_rate (init cfg env m).1 v).rate ≠ 50 ∧
    (update tick (set_rate (init cfg env m).1 v)).rate = v ∧
    (init cfg env (set_rate (init cfg env m).1 v)).1.rate = 50 := by
  have h1 : (set_rate (init cfg env m).1 v).rate = v := rfl
  refine ⟨h1, ?_, ?_, ?_⟩
  · rw [h1]; omega
  · rw [update_rate, h1]
  · rw [init_rate, clamp_rate_rate, h1]; omega

/-- Witness of C2 (amended) at the rate 10 on a full build. -/
theorem rate_set_after_init_witness :
    (set_rate (init full_build sample_factory (new 1)).1 10).rate = 10 ∧
    (set_rate (init full_build sample_factory (new 1)).1 10).rate ≠ 50 ∧
    (update sample_tick (set_rate (init full_build sample_factory (new 1)).1 10)).rate = 10 ∧
    (init full_build sample_factory
      (set_rate (init full_build sample_factory (new 1)).1 10)).1.rate = 50 :=
  rate_set_after_init full_build sample_factory (new 1) sample_tick 10 (by decide)

/-- C3: `enabled()` is true exactly when the device type is not `None`; for a
stored `AP_Int8` value that is exactly when the value is not 0; and two
managers with the same device type agree on `enabled()`, whatever their
backend pointer, rate, options, sensors and shared record. The function takes
no build configuration. -/
theorem enabled_iff (m : Manager) :
    (enabled m = true ↔ DevType.cast m.devtype ≠ DevType.None) ∧
    (-128 ≤ m.devtype ∧ m.devtype ≤ 127 → (enabled m = true ↔ m.devtype ≠ 0)) ∧
    (∀ m' : Manager, m'.devtype = m.devtype → enabled m' = enabled m) := by
  have h1 : enabled m = true ↔ DevType.cast m.devtype ≠ DevType.None := by
    unfold enabled
    simp
  refine ⟨h1, ?_, ?_⟩
  · rintro ⟨hlo, hhi⟩
    rw [h1, Ne, cast_eq_None_iff m.devtype hlo hhi]
  · intro m' h
    unfold enabled
    rw [h]

/-- Witness of C3: a manager of type VectorNav whose backend could not be
built (null pointer) is enabled, and so is the same manager with a backend. -/
theorem enabled_iff_witness :
    enabled (load_params (new 0) 1 50 0 15) = true ∧
    enabled { load_params (new 0) 1 50 0 15 with backend := some sample_VectorNav, rate := 7 }
      = enabled (load_params (new 0) 1 50 0 15) :=
  ⟨((enabled_iff (load_params (new 0) 1 50 0 15)).2.1 (by decide)).2 (by decide),
   (enabled_iff (load_params (new 0) 1 50 0 15)).2.2 _ rfl⟩

/-- C4: for a manager without backend whose device type is `None`, under every
build configuration, every backend constructor and every rate, options and
sensors value: `init()` builds no backend and sends no text, afterwards
`enabled()` is false, `update()` returns the manager as it was (shared record
included), and `get_port` is -1 for each of the four sensors. -/
theorem none_type_stays_unconfigured (cfg : BuildConfig) (env : BackendFactory)
    (tick : Backend → SensorState → Backend × SensorState) (m : Manager)
    (hb : m.backend = none) (ht : DevType.cast m.devtype = DevType.None) :
    (init cfg env m).1.backend = none ∧
    (init cfg env m).2 = [] ∧
    enabled (init cfg env m).1 = false ∧
    update tick (init cfg env m).1 = (init cfg env m).1 ∧
    (update tick (init cfg env m).1).state = m.state ∧
    (∀ s : AvailableSensor, (get_port (init cfg env m).1 s).value = -1) := by
  have hback : (init cfg env m).1.backend = none := by
    rw [init_backend, if_pos ht, hb]
  have hupd := update_of_no_backend tick (init cfg env m).1 hback
  refine ⟨hback, ?_, ?_, hupd, ?_, ?_⟩
  · rw [init_texts, if_pos ht]
  · unfold enabled
    rw [init_devtype, ht]
    decide
  · rw [hupd, init_state]
  · intro s
    exact get_port_of_no_backend _ s hback

/-- Witness of C4: a freshly constructed manager of type 0 with rate 10. -/
theorem none_type_stays_unconfigured_witness :
    (init full_build sample_factory (load_params (new 0) 0 10 0 15)).1.backend = none ∧
    (init full_build sample_factory (load_params (new 0) 0 10 0 15)).2 = [] ∧
    enabled (init full_build sample_factory (load_params (new 0) 0 10 0 15)).1 = false ∧
    update sample_tick (init full_build sample_factory (load_params (new 0) 0 10 0 15)).1
      = (init full_build sample_factory (load_params (new 0) 0 10 0 15)).1 ∧
    (update sample_tick
      (init full_build sample_factory (load_params (new 0) 0 10 0 15)).1).state
      = (load_params (new 0) 0 10 0 15).state ∧
    (∀ s : AvailableSensor,
      (get_port (init full_build sample_factory (load_params (new 0) 0 10 0 15)).1 s).value
        = -1) :=
  none_type_stays_unconfigured full_build sample_factory sample_tick
    (load_params (new 0) 0 10 0 15) rfl (by decide)

/-- C5: for a manager without backend and without data (as freshly
constructed) whose device type selects a backend that is compiled out, `init()`
leaves the backend pointer null and the shared record as it was, and afterwards
every accessor returns its absent value and leaves the caller's argument as it
was. -/
theorem compiled_out_stays_unconfigured (cfg : BuildConfig) (env : BackendFactory)
    (m : Manager) (hb : m.backend = none) (hs : m.state.no_data = true)
    (hout : (DevType.cast m.devtype = DevType.VecNav ∧
              cfg.AP_EXTERNAL_AHRS_VECTORNAV_ENABLED = false) ∨
            (DevType.cast m.devtype = DevType.MicroStrain ∧
              cfg.AP_EXTERNAL_AHRS_MICROSTRAIN_ENABLED = false)) :
    (init cfg env m).1.backend = none ∧
    (init cfg env m).1.state = m.state ∧
    (healthy (init cfg env m).1).value = false ∧
    (initialised (init cfg env m).1).value = false ∧
    (∀ msg len, (pre_arm_check (init cfg env m).1 msg len).value = (false, msg)) ∧
    (∀ q, (get_quaternion (init cfg env m).1 q).value = (false, q)) ∧
    (∀ loc, (get_location (init cfg env m).1 loc).value = (false, loc)) ∧
    (∀ loc, (get_origin (init cfg env m).1 loc).value = (false, loc)) ∧
    (∀ vel, (get_velocity_NED (init cfg env m).1 vel).value = (false, vel)) ∧
    (∀ sp, (get_speed_down (init cfg env m).1 sp).value = (false, sp)) ∧
    (get_name (init cfg env m).1).value = none ∧
    (∀ s : AvailableSensor, (get_port (init cfg env m).1 s).value = -1) := by
  have hback : (init cfg env m).1.backend = none := by
    rw [init_backend]
    rcases hout with ⟨ht, hc⟩ | ⟨ht, hc⟩
    · have h0 : DevType.cast m.devtype ≠ DevType.None := by rw [ht]; decide
      have h2 : DevType.cast m.devtype ≠ DevType.MicroStrain := by rw [ht]; decide
      simp [h0, h2, hc, hb]
    · have h0 : DevType.cast m.devtype ≠ DevType.None := by rw [ht]; decide
      have h1 : DevType.cast m.devtype ≠ DevType.VecNav := by rw [ht]; decide
      simp [h0, h1, hc, hb]
  have hstate := init_state cfg env m
  simp only [SensorState.no_data, Bool.and_eq_true, Bool.not_eq_true'] at hs
  obtain ⟨⟨⟨hq, ho⟩, hl⟩, hv⟩ := hs
  refine ⟨hback, hstate, ?_, ?_, ?_, ?_, ?_, ?_, ?_, ?_, ?_, ?_⟩
  · unfold healthy; rw [hback]
  · unfold initialised; rw [hback]
  · intro msg len; unfold pre_arm_check; rw [hback]
  · intro q; unfold get_quaternion; rw [hstate, hq]; rfl
  · intro loc; unfold get_location; rw [hstate, hl]; rfl
  · intro loc; unfold get_origin; rw [hstate, ho]; rfl
  · intro vel; unfold get_velocity_NED; rw [hstate, hv]; rfl
  · intro sp; unfold get_speed_down; rw [hstate, hv]; rfl
  · unfold get_name; rw [hback]
  · intro s; exact get_port_of_no_backend _ s hback

/-- Witness of C5: a freshly constructed manager of type MicroStrain on a build
with VectorNav only. -/
theorem compiled_out_stays_unconfigured_witness :
    (load_params (new 0) 2 50 0 15).backend = none ∧
    (load_params (new 0) 2 50 0 15).state.no_data = true ∧
    (init vectornav_only sample_factory (load_params (new 0) 2 50 0 15)).1.backend = none ∧
    (healthy (init vectornav_only sample_factory (load_params (new 0) 2 50 0 15)).1).value
      = false ∧
    (∀ q, (get_quaternion
      (init vectornav_only sample_factory (load_params (new 0) 2 50 0 15)).1 q).value
      = (false, q)) ∧
    (get_name (init vectornav_only sample_factory (load_params (new 0) 2 50 0 15)).1).value
      = none :=
  have h := compiled_out_stays_unconfigured vectornav_only sample_factory
    (load_params (new 0) 2 50 0 15) rfl (by decide) (Or.inr ⟨by decide, rfl⟩)
  ⟨rfl, by decide, h.1, h.2.2.1, h.2.2.2.2.2.1, h.2.2.2.2.2.2.2.2.2.2.1⟩

/-- C6 (the code at the failing input): on a build with MicroStrain compiled
out, `init()` of a manager of type 2 (MicroStrain, compiled out) or of type 7
(no such type) builds no backend and sends no text at all: the `switch` has no
`default:` label in that build. On the full build the text for type 7 is sent
once. -/
theorem init_unsupported_text_missing :
    (init vectornav_only sample_factory (load_params (new 0) 2 50 0 15)).2 = [] ∧
    (init vectornav_only sample_factory (load_params (new 0) 2 50 0 15)).1.backend = none ∧
    (init vectornav_only sample_factory (load_params (new 0) 7 50 0 15)).2 = [] ∧
    (init vectornav_only sample_factory (load_params (new 0) 7 50 0 15)).1.backend = none ∧
    (init full_build sample_factory (load_params (new 0) 7 50 0 15)).2
      = [unsupported_text 7] := by
  decide

/-- C7 (as stated, refuted): on a freshly constructed manager, which has no
backend, `get_gyro`, `get_accel` and `get_groundspeed_vector` each take the
semaphore. -/
theorem unconfigured_get_gyro_takes_lock :
    (new 0).backend = none ∧
    lock_free (get_gyro (new 0)).events = false ∧
    lock_free (get_accel (new 0)).events = false ∧
    lock_free (get_groundspeed_vector (new 0)).events = false ∧
    (get_gyro (new 0)).events = [.sem_take, .read_field .gyro, .sem_give] := by
  decide

/-- C7 (amended): without a backend, the six accessors that forward to the
backend (`healthy`, `initialised`, `get_port`, `get_name`, `pre_arm_check`,
`get_filter_status`) return their absent result and perform no event at all;
the five presence-gated accessors leave the semaphore alone exactly when their
flag is not set, and then return false with the caller's argument as it was;
`get_gyro`, `get_accel` and `get_groundspeed_vector` take the semaphore once
and return what the record holds. -/
theorem unconfigured_accessors (m : Manager) (hb : m.backend = none) :
    ((healthy m).value = false ∧ (healthy m).events = []) ∧
    ((initialised m).value = false ∧ (initialised m).events = []) ∧
    (∀ s, (get_port m s).value = -1 ∧ (get_port m s).events = []) ∧
    ((get_name m).value = none ∧ (get_name m).events = []) ∧
    (∀ msg len, (pre_arm_check m msg len).value = (false, msg) ∧
      (pre_arm_check m msg len).events = []) ∧
    (∀ st, (get_filter_status m st).value = 0 ∧ (get_filter_status m st).events = []) ∧
    (∀ q, (lock_free (get_quaternion m q).events = true ↔ m.state.have_quaternion = false) ∧
      (m.state.have_quaternion = false → (get_quaternion m q).value = (false, q))) ∧
    (∀ loc, (lock_free (get_location m loc).events = true ↔ m.state.have_location = false) ∧
      (m.state.have_location = false → (get_location m loc).value = (false, loc))) ∧
    (∀ loc, (lock_free (get_origin m loc).events = true ↔ m.state.have_origin = false) ∧
      (m.state.have_origin = false → (get_origin m loc).value = (false, loc))) ∧
    (∀ vel, (lock_free (get_velocity_NED m vel).events = true ↔ m.state.have_velocity = false) ∧
      (m.state.have_velocity = false → (get_velocity_NED m vel).value = (false, vel))) ∧
    (∀ sp, (lock_free (get_speed_down m sp).events = true ↔ m.state.have_velocity = false) ∧
      (m.state.have_velocity = false → (get_speed_down m sp).value = (false, sp))) ∧
    (takes (get_gyro m).events = 1 ∧ (get_gyro m).value = m.state.gyro) ∧
    (takes (get_accel m).events = 1 ∧ (get_accel m).value = m.state.accel) ∧
    (takes (get_groundspeed_vector m).events = 1 ∧
      (get_groundspeed_vector m).value = ⟨m.state.velocity.x, m.state.velocity.y⟩) := by
  refine ⟨?_, ?_, ?_, ?_, ?_, ?_, ?_, ?_, ?_, ?_, ?_, ?_, ?_, ?_⟩
  · unfold healthy; rw [hb]; exact ⟨rfl, rfl⟩
  · unfold initialised; rw [hb]; exact ⟨rfl, rfl⟩
  · intro s; unfold get_port; rw [hb]; exact ⟨rfl, rfl⟩
  · unfold get_name; rw [hb]; exact ⟨rfl, rfl⟩
  · intro msg len; unfold pre_arm_check; rw [hb]; exact ⟨rfl, rfl⟩
  · intro st; unfold get_filter_status; rw [hb]; exact ⟨rfl, rfl⟩
  · intro q; unfold get_quaternion
    cases h : m.state.have_quaternion <;> simp [lock_free]
  · intro loc; unfold get_location
    cases h : m.state.have_location <;> simp [lock_free]
  · intro loc; unfold get_origin
    cases h : m.state.have_origin <;> simp [lock_free]
  · intro vel; unfold get_velocity_NED
    cases h : m.state.have_velocity <;> simp [lock_free]
  · intro sp; unfold get_speed_down
    cases h : m.state.have_velocity <;> simp [lock_free]
  · exact ⟨rfl, rfl⟩
  · exact ⟨rfl, rfl⟩
  · exact ⟨rfl, rfl⟩

/-- Witness of C7 (amended) on a freshly constructed manager: `healthy` does
nothing and is false, `get_quaternion` reads the flag only. -/
theorem unconfigured_accessors_witness :
    (new 0).backend = none ∧
    ((healthy (new 0)).value = false ∧ (healthy (new 0)).events = []) ∧
    lock_free (get_quaternion (new 0) ⟨1, 0, 0, 0⟩).events = true ∧
    (get_quaternion (new 0) ⟨1, 0, 0, 0⟩).value = (false, ⟨1, 0, 0, 0⟩) :=
  have h := unconfigured_accessors (new 0) rfl
  have hq := h.2.2.2.2.2.2.1 ⟨1, 0, 0, 0⟩
  ⟨rfl, h.1, hq.1.2 rfl, hq.2 rfl⟩

/-- The bit test of `has_sensor`, with `testBit`. -/
theorem has_sensor_eq_testBit (m : Manager) (s : AvailableSensor) :
    has_sensor m s = (m.sensors % 65536).toNat.testBit s.bit := by
  unfold has_sensor
  rw [Nat.one_shiftLeft, Nat.and_two_pow]
  cases (m.sensors % 65536).toNat.testBit s.bit <;> simp

/-- C8: `get_port(s)` is the backend's port when there is a backend and the
bit of `s` (GPS 0, IMU 1, Baro 2, Compass 3) is set in the sensors bitmask
taken as `uint16_t`, and -1 in every other case; with the bitmask 0xF and a
backend it is the backend's port for all four sensors. -/
theorem get_port_spec (m : Manager) :
    (∀ s : AvailableSensor, (get_port m s).value =
      match m.backend with
      | some b => if (m.sensors % 65536).toNat.testBit s.bit = true then b.get_port else -1
      | none => -1) ∧
    (m.sensors = 0xF → ∀ b, m.backend = some b →
      ∀ s : AvailableSensor, (get_port m s).value = b.get_port) := by
  have h1 : ∀ s : AvailableSensor, (get_port m s).value =
      match m.backend with
      | some b => if (m.sensors % 65536).toNat.testBit s.bit = true then b.get_port else -1
      | none => -1 := by
    intro s
    unfold get_port
    cases hb : m.backend with
    | none => rfl
    | some b =>
      simp only [has_sensor_eq_testBit]
      split <;> rfl
  refine ⟨h1, ?_⟩
  intro hs b hb s
  rw [h1 s, hb, hs]
  cases s <;> rfl

/-- Witness of C8: an active VectorNav manager with the default bitmask 0xF
answers port 2 for every sensor; with the bitmask 0x5 it answers -1 for IMU. -/
theorem get_port_spec_witness :
    (∀ s : AvailableSensor, (get_port sample_active s).value = 2) ∧
    (get_port { sample_active with sensors := 5 } .IMU).value = -1 :=
  ⟨(get_port_spec sample_active).2 rfl _ rfl,
   ((get_port_spec { sample_active with sensors := 5 }).1 .IMU).trans (by decide)⟩

/-- C9 (as stated, refuted): on a manager that holds a velocity,
`get_velocity_NED` reads `have_velocity` first and takes the semaphore only
afterwards: the flag is not read while the semaphore is held. -/
theorem flag_read_before_lock :
    sample_active.state.have_velocity = true ∧
    (get_velocity_NED sample_active ⟨0, 0, 0⟩).events =
      [.read_flag .have_velocity, .sem_take, .read_field .velocity, .sem_give] ∧
    flags_read_locked false (get_velocity_NED sample_active ⟨0, 0, 0⟩).events = false := by
  decide

/-- C9 (amended): each presence-gated accessor performs exactly these events,
in this order. With the flag not set: the read of the flag, nothing else, and
the result is false with the caller's argument as it was. With the flag set:
the read of the flag, then the take of the semaphore, then one read of the
accessor's own value field, then the give of the semaphore, and the result is
true with the value the record holds. So the flag is read before the semaphore
is taken and never while it is held, the semaphore is taken once exactly when
the flag was read as set, and between take and give stands the copy of the
value and nothing else. -/
theorem flag_checked_then_locked (m : Manager) :
    (∀ q,
      (get_quaternion m q).events =
        (if m.state.have_quaternion = true then
          [.read_flag .have_quaternion, .sem_take, .read_field .quat, .sem_give]
        else [.read_flag .have_quaternion]) ∧
      (get_quaternion m q).value =
        (if m.state.have_quaternion = true then (true, m.state.quat) else (false, q)) ∧
      flag_checked_before_lock .have_quaternion (get_quaternion m q).events = true ∧
      takes (get_quaternion m q).events = (if m.state.have_quaternion = true then 1 else 0)) ∧
    (∀ loc,
      (get_origin m loc).events =
        (if m.state.have_origin = true then
          [.read_flag .have_origin, .sem_take, .read_field .origin, .sem_give]
        else [.read_flag .have_origin]) ∧
      (get_origin m loc).value =
        (if m.state.have_origin = true then (true, m.state.origin) else (false, loc)) ∧
      flag_checked_before_lock .have_origin (get_origin m loc).events = true ∧
      takes (get_origin m loc).events = (if m.state.have_origin = true then 1 else 0)) ∧
    (∀ loc,
      (get_location m loc).events =
        (if m.state.have_location = true then
          [.read_flag .have_location, .sem_take, .read_field .location, .sem_give]
        else [.read_flag .have_location]) ∧
      (get_location m loc).value =
        (if m.state.have_location = true then (true, m.state.location) else (false, loc)) ∧
      flag_checked_before_lock .have_location (get_location m loc).events = true ∧
      takes (get_location m loc).events = (if m.state.have_location = true then 1 else 0)) ∧
    (∀ vel,
      (get_velocity_NED m vel).events =
        (if m.state.have_velocity = true then
          [.read_flag .have_velocity, .sem_take, .read_field .velocity, .sem_give]
        else [.read_flag .have_velocity]) ∧
      (get_velocity_NED m vel).value =
        (if m.state.have_velocity = true then (true, m.state.velocity) else (false, vel)) ∧
      flag_checked_before_lock .have_velocity (get_velocity_NED m vel).events = true ∧
      takes (get_velocity_NED m vel).events = (if m.state.have_velocity = true then 1 else 0)) ∧
    (∀ sp,
      (get_speed_down m sp).events =
        (if m.state.have_velocity = true then
          [.read_flag .have_velocity, .sem_take, .read_field .velocity, .sem_give]
        else [.read_flag .have_velocity]) ∧
      (get_speed_down m sp).value =
        (if m.state.have_velocity = true then (true, m.state.velocity.z) else (false, sp)) ∧
      flag_checked_before_lock .have_velocity (get_speed_down m sp).events = true ∧
      takes (get_speed_down m sp).events = (if m.state.have_velocity = true then 1 else 0)) := by
  refine ⟨?_, ?_, ?_, ?_, ?_⟩
  · intro q; unfold get_quaternion
    cases h : m.state.have_quaternion <;> exact ⟨rfl, rfl, rfl, rfl⟩
  · intro loc; unfold get_origin
    cases h : m.state.have_origin <;> exact ⟨rfl, rfl, rfl, rfl⟩
  · intro loc; unfold get_location
    cases h : m.state.have_location <;> exact ⟨rfl, rfl, rfl, rfl⟩
  · intro vel; unfold get_velocity_NED
    cases h : m.state.have_velocity <;> exact ⟨rfl, rfl, rfl, rfl⟩
  · intro sp; unfold get_speed_down
    cases h : m.state.have_velocity <;> exact ⟨rfl, rfl, rfl, rfl⟩

/-- C10: `get_velocity_NED` and `get_speed_down` return the same boolean, the
flag `have_velocity`; when it is set the first hands out the stored velocity
and the second its `z` component; when it is not set the caller's argument is
handed back as it was; and the manager (shared record included) is the same
after the call. -/
theorem velocity_accessors (m : Manager) (vel : Vector3f) (speedD : FloatBits) :
    (get_velocity_NED m vel).value.1 = (get_speed_down m speedD).value.1 ∧
    (get_velocity_NED m vel).value.1 = m.state.have_velocity ∧
    (m.state.have_velocity = true →
      (get_velocity_NED m vel).value.2 = m.state.velocity ∧
      (get_speed_down m speedD).value.2 = m.state.velocity.z ∧
      (get_speed_down m speedD).value.2 = (get_velocity_NED m vel).value.2.z) ∧
    (m.state.have_velocity = false →
      (get_velocity_NED m vel).value.2 = vel ∧ (get_speed_down m speedD).value.2 = speedD) ∧
    (get_velocity_NED m vel).self = m ∧
    (get_speed_down m speedD).self = m := by
  unfold get_velocity_NED get_speed_down
  cases h : m.state.have_velocity <;> simp

/-- Witness of C10: with the velocity (3, 4, 5) published, both accessors
return true, with (3, 4, 5) and 5; on a fresh manager both hand back the
caller's values. -/
theorem velocity_accessors_witness :
    ((get_velocity_NED sample_active ⟨9, 9, 9⟩).value.2 = ⟨3, 4, 5⟩ ∧
      (get_speed_down sample_active 9).value.2 = 5 ∧
      (get_speed_down sample_active 9).value.2
        = (get_velocity_NED sample_active ⟨9, 9, 9⟩).value.2.z) ∧
    ((get_velocity_NED (new 0) ⟨9, 9, 9⟩).value.2 = ⟨9, 9, 9⟩ ∧
      (get_speed_down (new 0) 9).value.2 = 9) :=
  ⟨(velocity_accessors sample_active ⟨9, 9, 9⟩ 9).2.2.1 (by decide),
   (velocity_accessors (new 0) ⟨9, 9, 9⟩ 9).2.2.2.1 (by decide)⟩

end AP_ExternalAHRS
